import Mathlib

/-!
Shallow embedding of the cheminfo/serial-requests repository
(src/PortManager.js, src/DeviceManager.js, src/SerialRequests.js).

The Port Manager's request pipeline (admission gate, stale-identity check,
write callback, quiescence timer loop) and the Device Manager's identity
registry are modelled as executable Lean functions over explicit state.
JavaScript promises are modelled by a one-shot `settled` field (first
settle wins); the event loop's timer windows are modelled by a list of
data chunks, one chunk arriving per armed quiescence window.
-/

/-- JavaScript values held in the `deviceId` field: `undefined` before the
first identification, `null` never in practice (the constructor leaves the
field undefined), or a string identity. -/
inductive JsVal where
  | undefined
  | null
  | str (s : String)
deriving DecidableEq, Repr, BEq

/-- JavaScript truthiness for a `deviceId`-typed value: a non-empty string
is truthy, `undefined` and `null` (and the empty string) are falsy. -/
def jsTruthy : JsVal → Bool
  | .str s => !(s == "")
  | _ => false

/-- Error kinds a request future can be rejected with (spec section 7). -/
inductive RError where
  | notReady
  | queueFull
  | staleId
  | writeFailed
  | validationFailed
deriving DecidableEq, Repr, BEq

/-- A settled outcome of a request future. -/
inductive ROutcome where
  | resolved (response : String)
  | rejected (e : RError)
deriving DecidableEq, Repr, BEq

/-- Merged per-port options (PortManager.js `defaultOptions` merged with the
caller's options by `Object.assign`); only the fields the request pipeline
reads.  `getIdCommand` has no default, so it is `none` when the caller did
not configure it. -/
structure PortOptions where
  maxQLength : Int
  serialResponseTimeout : Nat
  getIdCommand : Option String
  checkResponse : Option (String → Bool)

/-- Caller-supplied option fields relevant to the request pipeline; `none`
models an absent (undefined) property. -/
structure CallerOptions where
  maxQLength : Option Int
  serialResponseTimeout : Option Nat
  getIdCommand : Option String
  checkResponse : Option (String → Bool)

/-- PortManager.js lines 8-14 and 83: `Object.assign({}, defaultOptions,
options, enforcedOptions)` — defaults `maxQLength: 30`,
`serialResponseTimeout: 200`; caller values override defaults; the enforced
raw parser does not touch these fields. -/
def mergeOptions (c : CallerOptions) : PortOptions :=
  { maxQLength := c.maxQLength.getD 30
    serialResponseTimeout := c.serialResponseTimeout.getD 200
    getIdCommand := c.getIdCommand
    checkResponse := c.checkResponse }

/-- PortManager.js line 233 inside `_appendRequest`:
`timeout = timeout || this.options.serialResponseTimeout;` — a falsy
per-request timeout (absent, i.e. `none`, or `0`) falls back to the port's
`serialResponseTimeout`. -/
def effectiveTimeout (timeout : Option Nat) (serialResponseTimeout : Nat) : Nat :=
  match timeout with
  | none => serialResponseTimeout
  | some n => if n = 0 then serialResponseTimeout else n

/-- State shared between `_appendRequest`'s closure and the Port Manager
while one request executes: the receive buffer `that.buffer`, the number of
times `queueLength` was decremented during this execution, and the promise's
settled state (`none` while pending). -/
structure ExecState where
  buffer : String
  queueDecrs : Nat
  settled : Option ROutcome
deriving Repr

/-- The `_resolve`/`_reject` helpers of PortManager.js lines 277-285: each
call decrements `queueLength` and then calls the promise's resolver or
rejecter; a promise only takes the first settlement. -/
def settle (st : ExecState) (o : ROutcome) : ExecState :=
  { st with
    queueDecrs := st.queueDecrs + 1
    settled := match st.settled with
      | some x => some x
      | none => some o }

/-- Result of one quiescence-timer expiry (`doTimeout`, PortManager.js lines
254-275): either the timer is re-armed with an updated buffer-length
snapshot, or the request is settled. -/
inductive TimerOutcome where
  | rearm (snapshot : Nat)
  | settledNow (st : ExecState)

/-- PortManager.js lines 254-275, `doTimeout(force)`: if the buffer grew
past the `bufferSize` snapshot, or `force` is set, take a new snapshot and
re-arm the timer; otherwise quiescence is reached: a configured
`checkResponse` that rejects the buffer rejects the request (buffer left
as-is), else the request resolves with the buffer and the buffer is then
emptied. -/
def doTimeout (check : Option (String → Bool)) (bufferSize : Nat) (force : Bool)
    (st : ExecState) : TimerOutcome :=
  if bufferSize < st.buffer.length ∨ force = true then
    .rearm st.buffer.length
  else
    match check with
    | some f =>
      if f st.buffer = false then
        .settledNow (settle st (.rejected .validationFailed))
      else
        .settledNow { settle st (.resolved st.buffer) with buffer := "" }
    | none => .settledNow { settle st (.resolved st.buffer) with buffer := "" }

/-- The event loop driving `doTimeout`'s self-rescheduling (PortManager.js
lines 259-261): each armed timer window delivers the next chunk of the
arrival schedule into `that.buffer` (the transport `data` handler, line
335) before the timer fires again; once the schedule is exhausted no more
data arrives and the next expiry reaches quiescence. -/
def runRequestTimer (check : Option (String → Bool)) :
    Nat → Bool → ExecState → List String → ExecState
  | bufferSize, force, st, [] =>
    (match doTimeout check bufferSize force st with
     | .settledNow stF => stF
     | .rearm snapshot =>
       match doTimeout check snapshot false st with
       | .settledNow stF => stF
       | .rearm _ => st)
  | bufferSize, force, st, c :: rest =>
    (match doTimeout check bufferSize force st with
     | .settledNow stF => stF
     | .rearm snapshot =>
       runRequestTimer check snapshot false { st with buffer := st.buffer ++ c } rest)

/-- PortManager.js lines 237-241, the stale-identity guard at the head of
the executing request: rejection is triggered when `this.deviceId !== null`,
the command is not the id probe, and the identity captured at enqueue time
differs from the current identity. -/
def staleIdCheck (opts : PortOptions) (cmd : String) (callId devId : JsVal) : Bool :=
  (devId != JsVal.null) && (some cmd != opts.getIdCommand) && (callId != devId)

/-- One request execution (`_appendRequest`'s returned thunk, PortManager.js
lines 234-288): run the stale-identity guard; otherwise write the command —
if the write callback reports an error it calls `_handleWriteError` and
`_reject(WriteFailed)` and then still falls through to `doTimeout(true)` —
and drive the quiescence timer loop over the arrival schedule `chunks`,
starting from whatever `that.buffer` already held (`b0`). -/
def execRequest (cmd : String) (opts : PortOptions) (callId devId : JsVal)
    (writeError : Bool) (chunks : List String) (b0 : String) : ExecState :=
  let st0 : ExecState := { buffer := b0, queueDecrs := 0, settled := none }
  if staleIdCheck opts cmd callId devId then
    settle st0 (.rejected .staleId)
  else
    let st1 := if writeError then settle st0 (.rejected .writeFailed) else st0
    runRequestTimer opts.checkResponse 0 true st1 chunks

/-- Admission-gate view of a Port Manager: the `ready` flag, the
`queueLength` counter and the merged options. -/
structure PMAdmit where
  ready : Bool
  queueLength : Int
  options : PortOptions

/-- Result of `addRequest`: an immediate rejection, or admission with the
incremented queue counter. -/
inductive AdmitResult where
  | rejected (e : RError)
  | admitted (pm : PMAdmit)

/-- PortManager.js lines 102-113, `addRequest(cmd, options)`: a non-probe
command while not ready is rejected with `NotReady`; a queue length strictly
above `maxQLength` is rejected with `QueueFull`; otherwise `queueLength` is
incremented and the request is appended. -/
def addRequest (pm : PMAdmit) (cmd : String) : AdmitResult :=
  if pm.ready = false ∧ some cmd ≠ pm.options.getIdCommand then
    .rejected .notReady
  else if pm.queueLength > pm.options.maxQLength then
    .rejected .queueFull
  else
    .admitted { pm with queueLength := pm.queueLength + 1 }

/-- Events emitted by a Port Manager that the identification handshake and
the status machine produce. -/
inductive PMEvent where
  | statusChanged (code : Int) (status : String)
  | readyEv (id : String)
  | reinitialized (id : String)
  | idchange (id : String)
deriving DecidableEq, Repr, BEq

/-- Status-machine view of a Port Manager: the last status code (`none`
before the first `_updateStatus` call), the `ready` flag and the device
identity. -/
structure PMStatusState where
  statusCode : Option Int
  ready : Bool
  deviceId : JsVal
deriving Repr

/-- The `switch (this.statusCode)` of PortManager.js lines 173-214, mapping
a status code to its `status` label. -/
def statusLabel (code : Int) : String :=
  if code = -1 then "serial port Error"
  else if code = 0 then "serial port open"
  else if code = 1 then "getting device id"
  else if code = 2 then "Serial port initialized"
  else if code = 3 then "Serial port disconnected"
  else if code = 4 then "Serial port closed"
  else if code = 5 then "Unable to find the port."
  else if code = 6 then "Serial port closing"
  else if code = 7 then "Init command failed"
  else "Undefined State"

/-- PortManager.js lines 167-228, `_updateStatus(code)`: record whether the
code changed, store the new code, set `ready` to true exactly when
`code === 2`, and emit one edge-triggered `statusChanged` event. -/
def updateStatus (pm : PMStatusState) (code : Int) : PMStatusState × List PMEvent :=
  let changed := pm.statusCode ≠ some code
  let pm1 : PMStatusState := { pm with statusCode := some code }
  let pm2 := if code = 2 then { pm1 with ready := true } else { pm1 with ready := false }
  (pm2, if changed then [.statusChanged code (statusLabel code)] else [])

/-- The `switch` of SerialRequests.js lines 117-158 (the older revision of
the same class), mapping a status code to its `status` label. -/
def srStatusLabel (code : Int) : String :=
  if code = -1 then "Serial port Error"
  else if code = 0 then "Serial port not initialized"
  else if code = 1 then "Serial port initializing"
  else if code = 2 then "Serial port initialized"
  else if code = 3 then "Serial port disconnected"
  else if code = 4 then "Serial port closed"
  else if code = 5 then "Unable to find the port."
  else if code = 6 then "Serial port closing"
  else if code = 7 then "Init command failed"
  else "Undefined State"

/-- SerialRequests.js lines 110-168, `_updateStatus(code)` of the older
revision: identical shape, except lines 159-160 read
`if (code !== 2) that.ready = true; else that.ready = false;` — the `ready`
flag is set to true exactly when the code is NOT 2. -/
def srUpdateStatus (pm : PMStatusState) (code : Int) : PMStatusState × List PMEvent :=
  let changed := pm.statusCode ≠ some code
  let pm1 : PMStatusState := { pm with statusCode := some code }
  let pm2 := if code ≠ 2 then { pm1 with ready := true } else { pm1 with ready := false }
  (pm2, if changed then [.statusChanged code (srStatusLabel code)] else [])

/-- PortManager.js lines 126-150: the success continuation of the id probe
inside `_serialPortInit`, dispatching on the parsed identity `deviceId`
(non-empty by the guards at lines 128-133).  The id-change branch emits
`idchange` and then calls `_updateStatus(2)`; the first-identification
branch calls `_updateStatus(2)` and then emits `ready`; the re-init branch
calls `_updateStatus(2)` and then emits `reinitialized`. -/
def handleInitResponse (pm : PMStatusState) (deviceId : String) :
    PMStatusState × List PMEvent :=
  if jsTruthy pm.deviceId = true ∧ pm.deviceId ≠ .str deviceId then
    let pm1 : PMStatusState := { pm with deviceId := .str deviceId }
    let (pm2, ev) := updateStatus pm1 2
    (pm2, .idchange deviceId :: ev)
  else if jsTruthy pm.deviceId = false then
    let pm1 : PMStatusState := { pm with deviceId := .str deviceId }
    let (pm2, ev) := updateStatus pm1 2
    (pm2, ev ++ [.readyEv deviceId])
  else
    let pm1 : PMStatusState := { pm with deviceId := .str deviceId }
    let (pm2, ev) := updateStatus pm1 2
    (pm2, ev ++ [.reinitialized deviceId])

/-- Events emitted by the Device Manager. -/
inductive DMEvent where
  | newDevice (id : String)
  | connect (id : String)
  | disconnect (id : String)
deriving DecidableEq, Repr, BEq

/-- Device Manager registry state (DeviceManager.js): `serialQManagers`
maps a port path (`comName`) to its Port Manager (modelled by an abstract
tag), `devices` maps a device identity to the value stored by
`this.devices[id] = this.serialQManagers[comName]` (which is `undefined`,
i.e. `none`, when no manager is registered for the path), and
`haveConnectedIds` is the module-scoped ever-seen list (line 7). -/
structure DMState where
  serialQManagers : List (String × Nat)
  devices : List (String × Option Nat)
  haveConnectedIds : List String
deriving Repr

/-- DeviceManager.js lines 169-178, `_deviceConnected(data, comName)`:
point `devices[data.id]` at the Port Manager registered for `comName`;
if the id was previously connected emit `connect{id}`, otherwise push it
onto `haveConnectedIds` and emit `new{id}`. -/
def deviceConnected (dm : DMState) (id comName : String) : DMState × List DMEvent :=
  let hasPreviouslyConnected := dm.haveConnectedIds.contains id
  let dm1 : DMState :=
    { dm with devices := (id, dm.serialQManagers.lookup comName)
        :: dm.devices.filter (fun p => p.1 != id) }
  if hasPreviouslyConnected then
    (dm1, [.connect id])
  else
    ({ dm1 with haveConnectedIds := dm.haveConnectedIds ++ [id] }, [.newDevice id])

/-- DeviceManager.js lines 156-161, the `disconnect` handler wired to each
Port Manager: delete `devices[data.id]` and re-emit `disconnect{id}`. -/
def deviceDisconnected (dm : DMState) (id : String) : DMState × List DMEvent :=
  ({ dm with devices := dm.devices.filter (fun p => p.1 != id) }, [.disconnect id])

/-- The Device Manager operations that touch the registry state. -/
inductive DMOp where
  | connected (id comName : String)
  | disconnected (id : String)

/-- Dispatch one registry operation. -/
def dmStep (dm : DMState) : DMOp → DMState × List DMEvent
  | .connected id comName => deviceConnected dm id comName
  | .disconnected id => deviceDisconnected dm id

/-- The buffer contents accumulated by the quiescence loop: starting from
`b`, append arriving chunks as long as each armed window saw the buffer
grow; the first silent window freezes the buffer. -/
def consumed : String → List String → String
  | b, [] => b
  | b, c :: rest =>
    if b.length < (b ++ c).length then consumed (b ++ c) rest else b ++ c

/-- The settled state reached at quiescence (the else-branch of `doTimeout`
applied to a final buffer). -/
def quiesceState (check : Option (String → Bool)) (st : ExecState) : ExecState :=
  match check with
  | some f =>
    if f st.buffer = false then settle st (.rejected .validationFailed)
    else { settle st (.resolved st.buffer) with buffer := "" }
  | none => { settle st (.resolved st.buffer) with buffer := "" }

/-- Concrete merged options used by the concrete runs below: defaults with
`getIdCommand` configured and no `checkResponse`. -/
def plainOpts : PortOptions :=
  { maxQLength := 30, serialResponseTimeout := 200
    getIdCommand := some "q", checkResponse := none }

/-- Concrete merged options with a `checkResponse` that rejects every
buffer. -/
def rejectAllOpts : PortOptions :=
  { maxQLength := 30, serialResponseTimeout := 200
    getIdCommand := some "q", checkResponse := some (fun _ => false) }

/-- Concrete merged options with `maxQLength = 2` (the queue-overflow
run of spec section 8). -/
def smallQueueOpts : PortOptions :=
  { maxQLength := 2, serialResponseTimeout := 200
    getIdCommand := some "q", checkResponse := none }

/-- Caller options with every relevant field absent. -/
def noCallerOptions : CallerOptions :=
  { maxQLength := none, serialResponseTimeout := none
    getIdCommand := none, checkResponse := none }

theorem settle_queueDecrs (st : ExecState) (o : ROutcome) :
    (settle st o).queueDecrs = st.queueDecrs + 1 := rfl

theorem settle_buffer (st : ExecState) (o : ROutcome) :
    (settle st o).buffer = st.buffer := rfl

theorem settle_isSome (st : ExecState) (o : ROutcome) :
    (settle st o).settled.isSome = true := by
  cases h : st.settled <;> simp [settle, h]

theorem consumed_nil (b : String) : consumed b [] = b := rfl

theorem consumed_cons (b c : String) (rest : List String) :
    consumed b (c :: rest)
      = if b.length < (b ++ c).length then consumed (b ++ c) rest else b ++ c := rfl

theorem doTimeout_rearm (check : Option (String → Bool)) (bufferSize : Nat)
    (force : Bool) (st : ExecState)
    (h : bufferSize < st.buffer.length ∨ force = true) :
    doTimeout check bufferSize force st = .rearm st.buffer.length := by
  unfold doTimeout
  rw [if_pos h]

theorem doTimeout_quiesce (check : Option (String → Bool)) (bufferSize : Nat)
    (st : ExecState) (h : ¬ bufferSize < st.buffer.length) :
    doTimeout check bufferSize false st = .settledNow (quiesceState check st) := by
  have hng : ¬ (bufferSize < st.buffer.length ∨ false = true) := by simp [h]
  unfold doTimeout quiesceState
  rw [if_neg hng]
  cases check with
  | none => rfl
  | some f => by_cases hf : f st.buffer = false <;> simp [hf]

theorem runRequestTimer_nil (check : Option (String → Bool)) (bufferSize : Nat)
    (force : Bool) (st : ExecState) :
    runRequestTimer check bufferSize force st []
      = (match doTimeout check bufferSize force st with
         | .settledNow stF => stF
         | .rearm snapshot =>
           match doTimeout check snapshot false st with
           | .settledNow stF => stF
           | .rearm _ => st) := rfl

theorem runRequestTimer_cons (check : Option (String → Bool)) (bufferSize : Nat)
    (force : Bool) (st : ExecState) (c : String) (rest : List String) :
    runRequestTimer check bufferSize force st (c :: rest)
      = (match doTimeout check bufferSize force st with
         | .settledNow stF => stF
         | .rearm snapshot =>
           runRequestTimer check snapshot false { st with buffer := st.buffer ++ c } rest) := rfl

theorem runRequestTimer_snapshot (check : Option (String → Bool)) :
    ∀ (rest : List String) (b c : String) (q : Nat) (s : Option ROutcome),
      runRequestTimer check b.length false ⟨b ++ c, q, s⟩ rest
        = quiesceState check ⟨consumed b (c :: rest), q, s⟩ := by
  intro rest
  induction rest with
  | nil =>
    intro b c q s
    by_cases h : b.length < (b ++ c).length
    · simp only [runRequestTimer_nil,
        doTimeout_rearm check b.length false ⟨b ++ c, q, s⟩ (Or.inl h),
        doTimeout_quiesce check _ ⟨b ++ c, q, s⟩ (lt_irrefl _),
        consumed_cons, if_pos h, consumed_nil]
    · simp only [runRequestTimer_nil,
        doTimeout_quiesce check b.length ⟨b ++ c, q, s⟩ h,
        consumed_cons, if_neg h]
  | cons cHead rest ih =>
    intro b c q s
    by_cases h : b.length < (b ++ c).length
    · simp only [runRequestTimer_cons,
        doTimeout_rearm check b.length false ⟨b ++ c, q, s⟩ (Or.inl h),
        consumed_cons, if_pos h]
      exact ih (b ++ c) cHead q s
    · simp only [runRequestTimer_cons,
        doTimeout_quiesce check b.length ⟨b ++ c, q, s⟩ h,
        consumed_cons, if_neg h]

theorem runRequestTimer_run (check : Option (String → Bool)) (bufferSize : Nat)
    (b : String) (q : Nat) (s : Option ROutcome) (chunks : List String) :
    runRequestTimer check bufferSize true ⟨b, q, s⟩ chunks
      = quiesceState check ⟨consumed b chunks, q, s⟩ := by
  cases chunks with
  | nil =>
    simp only [runRequestTimer_nil,
      doTimeout_rearm check bufferSize true ⟨b, q, s⟩ (Or.inr rfl),
      doTimeout_quiesce check _ ⟨b, q, s⟩ (lt_irrefl _), consumed_nil]
  | cons c rest =>
    simp only [runRequestTimer_cons,
      doTimeout_rearm check bufferSize true ⟨b, q, s⟩ (Or.inr rfl)]
    exact runRequestTimer_snapshot check rest b c q s

theorem quiesceState_queueDecrs (check : Option (String → Bool)) (st : ExecState) :
    (quiesceState check st).queueDecrs = st.queueDecrs + 1 := by
  cases check with
  | none => rfl
  | some f =>
    by_cases h : f st.buffer = false
    · simp [quiesceState, h, settle]
    · simp [quiesceState, h, settle]

theorem quiesceState_isSome (check : Option (String → Bool)) (st : ExecState) :
    (quiesceState check st).settled.isSome = true := by
  cases check with
  | none => exact settle_isSome st _
  | some f =>
    by_cases h : f st.buffer = false
    · simp only [quiesceState, h, if_true]
      exact settle_isSome st _
    · simp only [quiesceState, h, if_false]
      exact settle_isSome st _

theorem quiesceState_buffer (check : Option (String → Bool)) (st : ExecState) :
    (quiesceState check st).buffer
      = (match check with
         | some f => if f st.buffer = false then st.buffer else ""
         | none => "") := by
  cases check with
  | none => rfl
  | some f =>
    by_cases h : f st.buffer = false
    · simp [quiesceState, h, settle]
    · simp [quiesceState, h, settle]

theorem quiesceState_not_staleId (check : Option (String → Bool)) (st : ExecState)
    (h : st.settled ≠ some (.rejected .staleId)) :
    (quiesceState check st).settled ≠ some (.rejected .staleId) := by
  have hsettle : ∀ o : ROutcome, o ≠ .rejected .staleId →
      (settle st o).settled ≠ some (.rejected .staleId) := by
    intro o ho
    cases hs : st.settled with
    | none => simpa [settle, hs] using ho
    | some x =>
      rw [hs] at h
      simpa [settle, hs] using fun hx => h (by rw [hx])
  cases check with
  | none => exact hsettle _ (by simp)
  | some f =>
    by_cases hf : f st.buffer = false
    · simp only [quiesceState, hf, if_true]
      exact hsettle _ (by simp)
    · simp only [quiesceState, hf, if_false]
      exact hsettle _ (by simp)

/-- Claim C1, counterexample: a single admitted request whose transport
write reports an error.  `_reject(WriteFailed)` decrements `queueLength`,
and because the write callback does not return after rejecting, the
quiescence loop still runs and `_resolve` decrements a second time: the
counter is decremented twice for one admitted request, while the future
settles exactly once (with the write-failure rejection). -/
theorem queueDecrement_writeError_counterexample :
    (execRequest "x" plainOpts (.str "A") (.str "A") true [] "").queueDecrs = 2 ∧
    (execRequest "x" plainOpts (.str "A") (.str "A") true [] "").settled
      = some (.rejected .writeFailed) :=
  ⟨rfl, rfl⟩

/-- Claim C1 (amended): every executed request settles exactly once (the
promise takes its first settlement), and `queueLength` is decremented
exactly once per request on the stale-identity and normal paths — but
twice on the write-error path, where the rejected request's quiescence
loop still reaches `_resolve`. -/
theorem execRequest_settles_once_decrements (cmd : String) (opts : PortOptions)
    (callId devId : JsVal) (we : Bool) (chunks : List String) (b0 : String) :
    ((execRequest cmd opts callId devId we chunks b0).settled.isSome = true) ∧
    ((execRequest cmd opts callId devId we chunks b0).queueDecrs
      = if staleIdCheck opts cmd callId devId then 1 else if we then 2 else 1) := by
  unfold execRequest
  by_cases hs : staleIdCheck opts cmd callId devId = true
  · simp [hs, settle]
  · have hs' : staleIdCheck opts cmd callId devId = false := by
      revert hs; cases staleIdCheck opts cmd callId devId <;> simp
    cases we with
    | false =>
      simp only [hs', Bool.false_eq_true, if_false]
      rw [runRequestTimer_run opts.checkResponse 0 b0 0 none chunks]
      exact ⟨quiesceState_isSome _ _, quiesceState_queueDecrs _ _⟩
    | true =>
      simp only [hs', Bool.false_eq_true, if_false, if_true]
      have hst : settle { buffer := b0, queueDecrs := 0, settled := none }
          (.rejected .writeFailed)
          = ({ buffer := b0, queueDecrs := 1,
               settled := some (.rejected .writeFailed) } : ExecState) := rfl
      rw [hst, runRequestTimer_run opts.checkResponse 0 b0 1
        (some (.rejected .writeFailed)) chunks]
      exact ⟨quiesceState_isSome _ _, quiesceState_queueDecrs _ _⟩

/-- Claim C2 (confirmed): on a (non-forced) quiescence-timer expiry, if the
buffer grew past the snapshot, the snapshot is updated to the new length
and the timer re-armed; otherwise, a configured `checkResponse` rejecting
the buffer rejects the request with the validation error, and an absent or
accepting `checkResponse` resolves the request with the entire accumulated
buffer contents. -/
theorem doTimeout_quiescence (check : Option (String → Bool)) (bufferSize : Nat)
    (st : ExecState) :
    (bufferSize < st.buffer.length →
      doTimeout check bufferSize false st = .rearm st.buffer.length) ∧
    (st.buffer.length ≤ bufferSize →
      ((∀ f, check = some f → f st.buffer = false →
          doTimeout check bufferSize false st
            = .settledNow (settle st (.rejected .validationFailed))) ∧
       (∀ f, check = some f → f st.buffer = true →
          doTimeout check bufferSize false st
            = .settledNow { settle st (.resolved st.buffer) with buffer := "" }) ∧
       (check = none →
          doTimeout check bufferSize false st
            = .settledNow { settle st (.resolved st.buffer) with buffer := "" }))) := by
  constructor
  · intro h
    exact doTimeout_rearm check bufferSize false st (Or.inl h)
  · intro hle
    have hng : ¬ (bufferSize < st.buffer.length ∨ false = true) := by
      simp [Nat.not_lt.mpr hle]
    refine ⟨?_, ?_, ?_⟩
    · rintro f rfl hf
      unfold doTimeout
      rw [if_neg hng]
      simp [hf]
    · rintro f rfl hf
      unfold doTimeout
      rw [if_neg hng]
      simp [hf]
    · rintro rfl
      unfold doTimeout
      rw [if_neg hng]

/-- Witness for C2 at concrete inputs: a grown buffer re-arms the timer;
at quiescence an absent `checkResponse` resolves with the buffer, and an
all-rejecting `checkResponse` rejects with the validation error. -/
theorem doTimeout_quiescence_witness :
    (doTimeout none 0 false ⟨"A", 0, none⟩ = .rearm 1) ∧
    (doTimeout none 1 false ⟨"A", 0, none⟩
      = .settledNow { settle ⟨"A", 0, none⟩ (.resolved "A") with buffer := "" }) ∧
    (doTimeout (some (fun _ => false)) 1 false ⟨"A", 0, none⟩
      = .settledNow (settle ⟨"A", 0, none⟩ (.rejected .validationFailed))) :=
  ⟨(doTimeout_quiescence none 0 ⟨"A", 0, none⟩).1 (by decide),
   ((doTimeout_quiescence none 1 ⟨"A", 0, none⟩).2 (by decide)).2.2 rfl,
   ((doTimeout_quiescence (some (fun _ => false)) 1 ⟨"A", 0, none⟩).2 (by decide)).1
     (fun _ => false) rfl rfl⟩

/-- Claim C3, counterexample: a request whose response fails validation.
At completion the request is rejected with the validation error, but the
receive buffer still holds the response ("OK"), not the empty string: the
buffer is only cleared on the resolve path. -/
theorem buffer_not_reset_on_validation_failure :
    (execRequest "x" rejectAllOpts (.str "A") (.str "A") false ["OK"] "").settled
      = some (.rejected .validationFailed) ∧
    (execRequest "x" rejectAllOpts (.str "A") (.str "A") false ["OK"] "").buffer
      = "OK" :=
  ⟨rfl, rfl⟩

/-- Claim C3 (amended): the final receive buffer of a request execution is
unchanged on the stale-identity rejection path, left holding the full
accumulated response when `checkResponse` rejects it, and reset to empty
exactly when the quiescence loop takes its resolve branch (`checkResponse`
absent or accepting) — regardless of whether the future was already
rejected by a write error. -/
theorem execRequest_final_buffer (cmd : String) (opts : PortOptions)
    (callId devId : JsVal) (we : Bool) (chunks : List String) (b0 : String) :
    (execRequest cmd opts callId devId we chunks b0).buffer
      = if staleIdCheck opts cmd callId devId then b0
        else
          (match opts.checkResponse with
           | some f => if f (consumed b0 chunks) = false then consumed b0 chunks else ""
           | none => "") := by
  unfold execRequest
  by_cases hs : staleIdCheck opts cmd callId devId = true
  · simp [hs, settle]
  · have hs' : staleIdCheck opts cmd callId devId = false := by
      revert hs; cases staleIdCheck opts cmd callId devId <;> simp
    cases we with
    | false =>
      simp only [hs', Bool.false_eq_true, if_false]
      rw [runRequestTimer_run opts.checkResponse 0 b0 0 none chunks]
      exact quiesceState_buffer _ _
    | true =>
      simp only [hs', Bool.false_eq_true, if_false, if_true]
      have hst : settle { buffer := b0, queueDecrs := 0, settled := none }
          (.rejected .writeFailed)
          = ({ buffer := b0, queueDecrs := 1,
               settled := some (.rejected .writeFailed) } : ExecState) := rfl
      rw [hst, runRequestTimer_run opts.checkResponse 0 b0 1
        (some (.rejected .writeFailed)) chunks]
      exact quiesceState_buffer _ _

/-- Claim C4 (confirmed): past the ready gate, `addRequest` rejects with
`QueueFull` exactly when the queue length at admission time is strictly
greater than `maxQLength`; with `maxQLength = 2` three rapid submissions
are admitted and a fourth is rejected with `QueueFull` (effective capacity
`maxQLength + 1`). -/
theorem addRequest_queueFull_characterization :
    (∀ (pm : PMAdmit) (cmd : String),
        pm.ready = true ∨ some cmd = pm.options.getIdCommand →
        (addRequest pm cmd = .rejected .queueFull
          ↔ pm.options.maxQLength < pm.queueLength)) ∧
    (addRequest ⟨true, 0, smallQueueOpts⟩ "a" = .admitted ⟨true, 1, smallQueueOpts⟩ ∧
     addRequest ⟨true, 1, smallQueueOpts⟩ "a" = .admitted ⟨true, 2, smallQueueOpts⟩ ∧
     addRequest ⟨true, 2, smallQueueOpts⟩ "a" = .admitted ⟨true, 3, smallQueueOpts⟩ ∧
     addRequest ⟨true, 3, smallQueueOpts⟩ "a" = .rejected .queueFull) := by
  constructor
  · intro pm cmd h
    unfold addRequest
    have hng : ¬ (pm.ready = false ∧ some cmd ≠ pm.options.getIdCommand) := by
      rcases h with h | h
      · rintro ⟨h1, -⟩
        rw [h] at h1
        exact absurd h1 (by simp)
      · rintro ⟨-, h2⟩
        exact h2 h
    rw [if_neg hng]
    by_cases hq : pm.queueLength > pm.options.maxQLength
    · rw [if_pos hq]
      simpa using hq
    · rw [if_neg hq]
      simp [hq]
  · exact ⟨rfl, rfl, rfl, rfl⟩

/-- Witness for C4: at a ready Port Manager with `maxQLength = 2` and three
pending requests, a submission is rejected with `QueueFull` since 2 < 3. -/
theorem addRequest_queueFull_characterization_witness :
    addRequest ⟨true, 3, smallQueueOpts⟩ "a" = .rejected .queueFull
      ↔ smallQueueOpts.maxQLength < 3 :=
  addRequest_queueFull_characterization.1 ⟨true, 3, smallQueueOpts⟩ "a" (Or.inl rfl)

/-- Claim C5, counterexample: identification succeeding with a changed
identity (previous id "A", new id "B", previous status code 1).  The
`idchange` event is emitted BEFORE the `statusChanged` event carrying code
2, so the status event does not precede the semantic event it causes on
this branch. -/
theorem idchange_precedes_statusChanged_counterexample :
    (handleInitResponse ⟨some 1, false, .str "A"⟩ "B").2
      = [.idchange "B", .statusChanged 2 "Serial port initialized"] := rfl

/-- Claim C5 (amended): on a successful identification from a status other
than Ready, `statusChanged` with code 2 precedes `ready{id}` and
`reinitialized{id}`, but in the id-change branch `idchange{id}` is emitted
first and `statusChanged` with code 2 second. -/
theorem handleInitResponse_event_order (pm : PMStatusState) (id : String)
    (h2 : pm.statusCode ≠ some 2) :
    (jsTruthy pm.deviceId = false →
      (handleInitResponse pm id).2
        = [.statusChanged 2 (statusLabel 2), .readyEv id]) ∧
    (jsTruthy pm.deviceId = true → pm.deviceId = .str id →
      (handleInitResponse pm id).2
        = [.statusChanged 2 (statusLabel 2), .reinitialized id]) ∧
    (jsTruthy pm.deviceId = true → pm.deviceId ≠ .str id →
      (handleInitResponse pm id).2
        = [.idchange id, .statusChanged 2 (statusLabel 2)]) := by
  refine ⟨?_, ?_, ?_⟩
  · intro hT
    unfold handleInitResponse updateStatus
    simp [hT, h2]
  · intro hT hEq
    rw [hEq] at hT
    unfold handleInitResponse updateStatus
    simp [hT, hEq, h2]
  · intro hT hNe
    unfold handleInitResponse updateStatus
    simp [hT, hNe, h2]

/-- Witness for C5 at concrete inputs: first identification (undefined
previous id) emits `statusChanged 2` then `ready`; re-identification with
an unchanged id emits `statusChanged 2` then `reinitialized`. -/
theorem handleInitResponse_event_order_witness :
    (handleInitResponse ⟨some 1, false, .undefined⟩ "A").2
      = [.statusChanged 2 (statusLabel 2), .readyEv "A"] ∧
    (handleInitResponse ⟨some 1, false, .str "A"⟩ "A").2
      = [.statusChanged 2 (statusLabel 2), .reinitialized "A"] :=
  ⟨(handleInitResponse_event_order ⟨some 1, false, .undefined⟩ "A" (by decide)).1 rfl,
   (handleInitResponse_event_order ⟨some 1, false, .str "A"⟩ "A" (by decide)).2.1
     rfl rfl⟩

/-- Claim C6: in PortManager.js, `_updateStatus(code)` leaves `ready = true`
exactly when `code = 2`; the older revision SerialRequests.js (lines
159-160) inverts the conditional, setting `ready = false` on code 2
("Serial port initialized") and `ready = true` on every other code. -/
theorem ready_flag_iff_code2_and_sr_inversion :
    (∀ (pm : PMStatusState) (code : Int),
        ((updateStatus pm code).1.ready = true ↔ code = 2)) ∧
    ((srUpdateStatus ⟨none, false, .undefined⟩ 2).1.ready = false) ∧
    ((srUpdateStatus ⟨none, false, .undefined⟩ 0).1.ready = true) := by
  refine ⟨?_, rfl, rfl⟩
  intro pm code
  unfold updateStatus
  by_cases hc : code = 2 <;> simp [hc]

/-- Claim C7 (confirmed): `_deviceConnected(id, comName)` points
`devices[id]` at exactly the Port Manager registered for the path, emits
`connect{id}` when the id has been seen before and `new{id}` otherwise
(recording it), and `haveConnectedIds` only ever grows across the registry
operations. -/
theorem deviceConnected_registry_spec (dm : DMState) (id comName : String) :
    ((deviceConnected dm id comName).1.devices.lookup id
        = some (dm.serialQManagers.lookup comName)) ∧
    ((deviceConnected dm id comName).2
        = [if id ∈ dm.haveConnectedIds then .connect id else .newDevice id]) ∧
    ((deviceConnected dm id comName).1.haveConnectedIds
        = if id ∈ dm.haveConnectedIds
          then dm.haveConnectedIds else dm.haveConnectedIds ++ [id]) ∧
    (∀ op : DMOp, List.Sublist dm.haveConnectedIds (dmStep dm op).1.haveConnectedIds) := by
  refine ⟨?_, ?_, ?_, ?_⟩
  · by_cases hc : id ∈ dm.haveConnectedIds <;>
      simp [deviceConnected, hc, List.lookup]
  · by_cases hc : id ∈ dm.haveConnectedIds <;> simp [deviceConnected, hc]
  · by_cases hc : id ∈ dm.haveConnectedIds <;> simp [deviceConnected, hc]
  · intro op
    cases op with
    | connected id2 comName2 =>
      have hids : (dmStep dm (.connected id2 comName2)).1.haveConnectedIds
          = if id2 ∈ dm.haveConnectedIds
            then dm.haveConnectedIds else dm.haveConnectedIds ++ [id2] := by
        by_cases hc : id2 ∈ dm.haveConnectedIds <;>
          simp [dmStep, deviceConnected, hc]
      rw [hids]
      by_cases hc : id2 ∈ dm.haveConnectedIds
      · rw [if_pos hc]
      · rw [if_neg hc]
        exact List.sublist_append_left _ _
    | disconnected id2 =>
      exact List.Sublist.refl _

/-- Claim C8, counterexample: a not-ready Port Manager whose queue already
holds 31 entries (`maxQLength = 30`).  A submission equal to the configured
`getIdCommand` is not rejected with `NotReady`, but it is rejected with
`QueueFull` rather than admitted — the probe command is not always admitted
to the queue. -/
theorem probe_rejected_queueFull_counterexample :
    addRequest ⟨false, 31, plainOpts⟩ "q" = .rejected .queueFull := rfl

/-- Claim C8 (amended): a submission whose command equals the configured
`getIdCommand` is never rejected with `NotReady`, and it is admitted
whenever the queue length does not exceed `maxQLength`; it is still
subject to the `QueueFull` bound. -/
theorem probe_admission_amended (pm : PMAdmit) (cmd : String)
    (h : some cmd = pm.options.getIdCommand) :
    addRequest pm cmd ≠ .rejected .notReady ∧
    (pm.queueLength ≤ pm.options.maxQLength →
      addRequest pm cmd = .admitted { pm with queueLength := pm.queueLength + 1 }) := by
  unfold addRequest
  have hng : ¬ (pm.ready = false ∧ some cmd ≠ pm.options.getIdCommand) := by
    rintro ⟨-, h2⟩
    exact h2 h
  rw [if_neg hng]
  constructor
  · by_cases hq : pm.queueLength > pm.options.maxQLength
    · rw [if_pos hq]
      simp
    · rw [if_neg hq]
      simp
  · intro hle
    rw [if_neg (not_lt.mpr hle)]

/-- Witness for C8 at a concrete not-ready Port Manager with an empty
queue: the probe is not rejected with `NotReady` and is admitted. -/
theorem probe_admission_amended_witness :
    addRequest ⟨false, 0, plainOpts⟩ "q" ≠ .rejected .notReady ∧
    addRequest ⟨false, 0, plainOpts⟩ "q" = .admitted ⟨false, 0 + 1, plainOpts⟩ :=
  ⟨(probe_admission_amended ⟨false, 0, plainOpts⟩ "q" rfl).1,
   (probe_admission_amended ⟨false, 0, plainOpts⟩ "q" rfl).2 (by decide)⟩

/-- Claim C9 (confirmed): a caller-submitted command string equal to the
configured `getIdCommand` bypasses both gates that apply to ordinary
requests: the admission gate never rejects it with `NotReady` (whatever
the `ready` flag), and the stale-identity guard in `_appendRequest` is
skipped, so its execution never settles with the stale-identity
rejection. -/
theorem probe_bypasses_ready_and_stale_gates (pm : PMAdmit) (cmd : String)
    (callId devId : JsVal) (we : Bool) (chunks : List String) (b0 : String)
    (h : some cmd = pm.options.getIdCommand) :
    addRequest pm cmd ≠ .rejected .notReady ∧
    staleIdCheck pm.options cmd callId devId = false ∧
    (execRequest cmd pm.options callId devId we chunks b0).settled
      ≠ some (.rejected .staleId) := by
  have hstale : staleIdCheck pm.options cmd callId devId = false := by
    unfold staleIdCheck
    rw [← h]
    simp
  refine ⟨?_, hstale, ?_⟩
  · unfold addRequest
    have hng : ¬ (pm.ready = false ∧ some cmd ≠ pm.options.getIdCommand) := by
      rintro ⟨-, h2⟩
      exact h2 h
    rw [if_neg hng]
    by_cases hq : pm.queueLength > pm.options.maxQLength
    · rw [if_pos hq]
      simp
    · rw [if_neg hq]
      simp
  · unfold execRequest
    simp only [hstale, Bool.false_eq_true, if_false]
    cases we with
    | false =>
      simp only [Bool.false_eq_true, if_false]
      rw [runRequestTimer_run pm.options.checkResponse 0 b0 0 none chunks]
      exact quiesceState_not_staleId _ _ (by simp)
    | true =>
      simp only [if_true]
      have hst : settle { buffer := b0, queueDecrs := 0, settled := none }
          (.rejected .writeFailed)
          = ({ buffer := b0, queueDecrs := 1,
               settled := some (.rejected .writeFailed) } : ExecState) := rfl
      rw [hst, runRequestTimer_run pm.options.checkResponse 0 b0 1
        (some (.rejected .writeFailed)) chunks]
      exact quiesceState_not_staleId _ _ (by simp)

/-- Witness for C9 at concrete inputs: a not-ready Port Manager, the probe
command "q", no data, no write error. -/
theorem probe_bypasses_ready_and_stale_gates_witness :
    addRequest ⟨false, 0, plainOpts⟩ "q" ≠ .rejected .notReady ∧
    staleIdCheck plainOpts "q" .undefined .undefined = false ∧
    (execRequest "q" plainOpts .undefined .undefined false [] "").settled
      ≠ some (.rejected .staleId) :=
  probe_bypasses_ready_and_stale_gates ⟨false, 0, plainOpts⟩ "q"
    .undefined .undefined false [] "" rfl

/-- Claim C10 (confirmed): a falsy per-request timeout (absent, or an
explicit 0) makes the quiescence window fall back to the port's
`serialResponseTimeout`, which is 200 ms when the caller did not configure
it; and whenever the port's `serialResponseTimeout` is positive, no
per-request timeout value can produce a zero-length quiescence window. -/
theorem falsy_timeout_uses_default (c : CallerOptions) (t : Option Nat)
    (h : t = none ∨ t = some 0) :
    effectiveTimeout t (mergeOptions c).serialResponseTimeout
        = (mergeOptions c).serialResponseTimeout ∧
    (c.serialResponseTimeout = none →
      effectiveTimeout t (mergeOptions c).serialResponseTimeout = 200) ∧
    (∀ t2 : Option Nat, 0 < (mergeOptions c).serialResponseTimeout →
      0 < effectiveTimeout t2 (mergeOptions c).serialResponseTimeout) := by
  refine ⟨?_, ?_, ?_⟩
  · rcases h with rfl | rfl <;> rfl
  · intro hn
    rcases h with rfl | rfl <;> simp [mergeOptions, effectiveTimeout, hn]
  · intro t2 hpos
    cases t2 with
    | none => exact hpos
    | some n =>
      by_cases hz : n = 0
      · simpa [effectiveTimeout, hz] using hpos
      · simpa [effectiveTimeout, hz] using Nat.pos_of_ne_zero hz

/-- Witness for C10: with no caller-configured `serialResponseTimeout`, an
absent per-request timeout yields 200 ms and an explicit 0 yields a
positive window. -/
theorem falsy_timeout_uses_default_witness :
    effectiveTimeout none (mergeOptions noCallerOptions).serialResponseTimeout = 200 ∧
    0 < effectiveTimeout (some 0) (mergeOptions noCallerOptions).serialResponseTimeout :=
  ⟨(falsy_timeout_uses_default noCallerOptions none (Or.inl rfl)).2.1 rfl,
   (falsy_timeout_uses_default noCallerOptions (some 0) (Or.inr rfl)).2.2
     (some 0) (by decide)⟩
